import Mathlib

/-!
Verification of an App Store Connect API client library (Go) against its
natural-language specification.  The development shallowly embeds the
JWT generator (pkg/jwt/jwt.go), the HTTP transport (pkg/httpclient/client.go),
the client facade (pkg/appstore/client.go) and the device resource client
(pkg/appstore/device.go).  External collaborators (the network, the x509/pem
parsers, the filesystem, the clock) are modelled as oracle inputs; everything
the repository's own code computes is translated function by function.
-/

/-! ## JSON values and Go maps

Go's decoded JSON (interface values produced by json.Unmarshal) is modelled by
the inductive `JSON`; a Go `map[string]interface x7b x7d` becomes an association
list.  Reading a missing key from a Go map yields the nil interface value,
modelled by `JSON.null`; a Go type assertion with the comma-ok form becomes an
`as...` projection returning `Option`. -/
inductive JSON where
  | null : JSON
  | str : String → JSON
  | num : Int → JSON
  | boolean : Bool → JSON
  | arr : List JSON → JSON
  | obj : List (String × JSON) → JSON
deriving Repr

abbrev GoMap := List (String × JSON)

/-- Reading key `k` from a Go map: first binding, or the nil interface value. -/
def oget (kvs : GoMap) (k : String) : JSON :=
  match kvs with
  | [] => JSON.null
  | (k0, v) :: rest => if k0 = k then v else oget rest k

/-- Reading from a possibly-nil Go map (a nil map read yields the zero value). -/
def jget (m : Option GoMap) (k : String) : JSON :=
  match m with
  | none => JSON.null
  | some kvs => oget kvs k

/-- Go type assertion `.([]interface x7b x7d)` with the comma-ok form. -/
def asArr (v : JSON) : Option (List JSON) :=
  match v with
  | JSON.arr xs => some xs
  | _ => none

/-- Go type assertion `.(map[string]interface x7b x7d)` with the comma-ok form. -/
def asObj (v : JSON) : Option GoMap :=
  match v with
  | JSON.obj kvs => some kvs
  | _ => none

/-- Extracting a string field with the comma-ok pattern used throughout
device.go: the Go zero value "" when the field is absent or not a string. -/
def strField (kvs : GoMap) (k : String) : String :=
  match oget kvs k with
  | JSON.str s => s
  | _ => ""

/-! ## strings.Contains -/

/-- Whether `needle` is a prefix of the second list (char-by-char equality). -/
def isPrefixCB : List Char → List Char → Bool
  | [], _ => true
  | _ :: _, [] => false
  | a :: as, b :: bs => a == b && isPrefixCB as bs

/-- Whether `needle` occurs as a contiguous run inside the second list. -/
def hasSubCB (needle : List Char) : List Char → Bool
  | [] => needle.isEmpty
  | b :: bs => isPrefixCB needle (b :: bs) || hasSubCB needle bs

/-- Model of strings.Contains(s, sub). -/
def strContains (s sub : String) : Bool :=
  hasSubCB sub.toList s.toList

/-! ## pkg/jwt/jwt.go — key parsing and token generation

pem.Decode and the x509 parsers are external library calls; a `KeyMaterial`
carries the raw Go string together with the oracle describing what those
parsers would return on it.  `x509.ParsePKCS8PrivateKey` returns an interface
value of some key family; the final Go type assertion
`key.(*ecdsa.PrivateKey)` becomes a test of that family. -/

inductive KeyFamily where
  | ecdsaP256 : KeyFamily
  | rsa : KeyFamily
  | other : KeyFamily
deriving DecidableEq, Repr

/-- An abstract decoded private key, tagged with its family. -/
structure ParsedKey where
  family : KeyFamily
  keyData : Nat
deriving DecidableEq, Repr

/-- Outcome of the two x509 parse attempts on one PEM block's bytes. -/
structure PEMBlock where
  pkcs8 : Option ParsedKey
  pkcs1 : Option ParsedKey
deriving DecidableEq, Repr

/-- A Go private-key string together with the oracle for pem.Decode on it
(`none` models "no PEM block found"). -/
structure KeyMaterial where
  raw : String
  pemBlock : Option PEMBlock
deriving DecidableEq, Repr

inductive KeyParseError where
  | keyFormatNoPEM : KeyParseError
  | keyFormatBadKey : KeyParseError
  | keyTypeNotECDSA : KeyParseError
deriving DecidableEq, Repr

/-- Model of the final type assertion `key.(*ecdsa.PrivateKey)` in
parsePrivateKey: non-elliptic families yield "private key is not ECDSA". -/
def assertECDSA (k : ParsedKey) : Except KeyParseError ParsedKey :=
  if k.family = KeyFamily.ecdsaP256 then Except.ok k
  else Except.error KeyParseError.keyTypeNotECDSA

/-- Model of Generator.parsePrivateKey (jwt.go lines 76-100): decode one PEM
block, try PKCS8 first, fall back to PKCS1 on failure, then assert the result
is an elliptic-curve key. -/
def parsePrivateKey (km : KeyMaterial) : Except KeyParseError ParsedKey :=
  match km.pemBlock with
  | none => Except.error KeyParseError.keyFormatNoPEM
  | some block =>
    match block.pkcs8 with
    | some k => assertECDSA k
    | none =>
      match block.pkcs1 with
      | some k => assertECDSA k
      | none => Except.error KeyParseError.keyFormatBadKey

/-- JWTConfig from jwt.go (Issuer, KeyID, PrivateKey). -/
structure JWTConfig where
  issuer : String
  keyID : String
  privateKey : KeyMaterial
deriving Repr

/-- Model of NewGenerator: reject empty issuer, key id or private key string. -/
def newGenerator (cfg : JWTConfig) : Except String JWTConfig :=
  if cfg.issuer = "" then Except.error "issuer is required"
  else if cfg.keyID = "" then Except.error "key id is required"
  else if cfg.privateKey.raw = "" then Except.error "private key is required"
  else Except.ok cfg

/-- Fixed audience constant jwtAud (jwt.go line 14). -/
def jwtAud : String := "appstoreconnect-v1"

/-- Algorithm name carried by jwt.SigningMethodES256, also declared as the
constant jwtAlg (jwt.go line 15). -/
def jwtAlg : String := "ES256"

/-- Decoded content of a minted token: the header fields written by
jwt.NewWithClaims plus the kid assignment, and the four claims. -/
structure Token where
  headerAlg : String
  headerTyp : String
  headerKid : String
  iss : String
  iat : Int
  exp : Int
  aud : String
deriving DecidableEq, Repr

/-- Model of Generator.GenerateToken (jwt.go lines 46-73).  `now` is the Unix
second at mint time (time.Now() oracle); time.Time.Add of whole seconds shifts
Unix() by exactly that many seconds.  Signing serialises the header and claims
built here; its output is modelled by the decoded `Token` record. -/
def generateToken (cfg : JWTConfig) (now : Int) : Except String Token :=
  match parsePrivateKey cfg.privateKey with
  | Except.error _ => Except.error "failed to parse private key"
  | Except.ok _ =>
    Except.ok
      { headerAlg := jwtAlg
        headerTyp := "JWT"
        headerKid := cfg.keyID
        iss := cfg.issuer
        iat := now - 60
        exp := now + 19 * 60
        aud := jwtAud }

/-! ## pkg/httpclient/client.go — headers, auth gating, response handling -/

/-- Setting a key in a Go string map (replace existing binding or append). -/
def mapSet (m : List (String × String)) (k v : String) : List (String × String) :=
  match m with
  | [] => [(k, v)]
  | (k0, v0) :: rest => if k0 = k then (k, v) :: rest else (k0, v0) :: mapSet rest k v

/-- Go string-map read: bound value, or the zero value "" when absent. -/
def hLookup (m : List (String × String)) (k : String) : String :=
  match m with
  | [] => ""
  | (k0, v0) :: rest => if k0 = k then v0 else hLookup rest k

/-- The header-relevant part of httpclient.Config: extra headers and the token. -/
structure HTTPConfig where
  headers : List (String × String)
  token : String
deriving DecidableEq, Repr

/-- Model of Client.GetHeaders (client.go lines 257-266): copy the configured
headers, then overwrite Authorization with "Bearer " + token when a token is
set. -/
def getHeaders (c : HTTPConfig) : List (String × String) :=
  if c.token = "" then c.headers
  else mapSet c.headers "Authorization" ("Bearer " ++ c.token)

/-- Model of Client.SetToken. -/
def setToken (c : HTTPConfig) (tok : String) : HTTPConfig :=
  { c with token := tok }

/-- Model of Client.EnsureAuth (appstore client facade): when the current
header set has an empty Authorization value, mint a token (`mint` is the
outcome of GetToken) and attach it; otherwise leave the state untouched. -/
def ensureAuth (mint : Except String String) (c : HTTPConfig) : Except String HTTPConfig :=
  if hLookup (getHeaders c) "Authorization" = "" then
    match mint with
    | Except.error e => Except.error e
    | Except.ok tok => Except.ok (setToken c tok)
  else Except.ok c

/-- An HTTP response as seen after the external network and json.Unmarshal
steps: the status code and the parse outcome of the body (`none` models a
body that is not a JSON object). -/
structure HTTPResponse where
  statusCode : Nat
  body : Option GoMap
deriving Repr

/-- Tail of Client.Get (client.go lines 310-319): parse failure drops the
body; a status of 400 or more returns the parsed body TOGETHER with an error. -/
def getRespResult (resp : HTTPResponse) : Option GoMap × Option String :=
  match resp.body with
  | none => (none, some "failed to parse JSON")
  | some m =>
    if 400 ≤ resp.statusCode then
      (some m, some ("API request failed with status " ++ toString resp.statusCode))
    else (some m, none)

/-- Tail of Client.PostJSON (client.go lines 360-369), duplicated in source. -/
def postRespResult (resp : HTTPResponse) : Option GoMap × Option String :=
  match resp.body with
  | none => (none, some "failed to parse JSON")
  | some m =>
    if 400 ≤ resp.statusCode then
      (some m, some ("API request failed with status " ++ toString resp.statusCode))
    else (some m, none)

/-- Tail of Client.Delete (client.go lines 409-418), duplicated in source. -/
def deleteRespResult (resp : HTTPResponse) : Option GoMap × Option String :=
  match resp.body with
  | none => (none, some "failed to parse JSON")
  | some m =>
    if 400 ≤ resp.statusCode then
      (some m, some ("API request failed with status " ++ toString resp.statusCode))
    else (some m, none)

/-! ## Query-string construction (Client.Get / url.Values.Encode)

Go strings are byte sequences; keys and values are modelled as lists of bytes
(`Nat` below 256).  url.Values.Encode sorts the keys and percent-escapes each
key and value with QueryEscape; the encoder below reproduces that, and
`decodeQuery` is the mathematical inverse used to state the round-trip
property. -/

/-- QueryEscape's unreserved set: ASCII alphanumerics and - _ . ~ . -/
def isUnreservedByte (b : Nat) : Bool :=
  (48 ≤ b && b ≤ 57) || (65 ≤ b && b ≤ 90) || (97 ≤ b && b ≤ 122) ||
    b == 45 || b == 95 || b == 46 || b == 126

/-- Uppercase hex digit of a nibble, as QueryEscape emits it. -/
def hexDigitU (n : Nat) : Nat :=
  if n < 10 then 48 + n else 55 + n

/-- Escape one byte: unreserved bytes pass through, space becomes +, anything
else becomes % followed by two uppercase hex digits. -/
def escapeByte (b : Nat) : List Nat :=
  if isUnreservedByte b then [b]
  else if b = 32 then [43]
  else [37, hexDigitU (b / 16), hexDigitU (b % 16)]

/-- Model of url.QueryEscape over a byte string. -/
def queryEscape (bs : List Nat) : List Nat :=
  (bs.map escapeByte).flatten

/-- Value of a hex digit byte, if any. -/
def hexVal (c : Nat) : Option Nat :=
  if 48 ≤ c && c ≤ 57 then some (c - 48)
  else if 65 ≤ c && c ≤ 70 then some (c - 55)
  else if 97 ≤ c && c ≤ 102 then some (c - 87)
  else none

/-- Inverse of queryEscape: decode %XX runs and +, pass other bytes through. -/
def queryUnescape : List Nat → Option (List Nat)
  | [] => some []
  | b :: rest =>
    if b = 37 then
      match rest with
      | h1 :: h2 :: rest2 =>
        match hexVal h1, hexVal h2 with
        | some a, some c =>
          match queryUnescape rest2 with
          | some r => some ((16 * a + c) :: r)
          | none => none
        | _, _ => none
      | _ => none
    else if b = 43 then
      match queryUnescape rest with
      | some r => some (32 :: r)
      | none => none
    else
      match queryUnescape rest with
      | some r => some (b :: r)
      | none => none

/-- Join byte strings with a separator byte (strings.Join shape used by
Values.Encode when writing & between pairs). -/
def joinSep (sep : Nat) : List (List Nat) → List Nat
  | [] => []
  | p :: ps =>
    match ps with
    | [] => p
    | _ :: _ => p ++ sep :: joinSep sep ps

/-- Split a byte string on a separator byte (inverse of joinSep). -/
def splitB (sep : Nat) : List Nat → List (List Nat)
  | [] => [[]]
  | b :: rest =>
    if b = sep then [] :: splitB sep rest
    else
      match splitB sep rest with
      | [] => [[b]]
      | g :: gs => (b :: g) :: gs

/-- Split at the first occurrence of a separator byte (strings.Cut shape). -/
def cutB (sep : Nat) : List Nat → Option (List Nat × List Nat)
  | [] => none
  | b :: rest =>
    if b = sep then some ([], rest)
    else
      match cutB sep rest with
      | some (l, r) => some (b :: l, r)
      | none => none

/-- Byte-lexicographic order on keys, as sort.Strings compares Go strings. -/
def bytesLe : List Nat → List Nat → Bool
  | [], _ => true
  | _ :: _, [] => false
  | a :: as, b :: bs => if a < b then true else if a = b then bytesLe as bs else false

/-- One key=value pair as Values.Encode writes it. -/
def encPair (p : List Nat × List Nat) : List Nat :=
  queryEscape p.1 ++ 61 :: queryEscape p.2

/-- Model of building url.Values from the params map and calling Encode:
sort the pairs by key, escape each side, join with = and &. -/
def encodeQuery (ps : List (List Nat × List Nat)) : List Nat :=
  joinSep 38 ((List.mergeSort ps (fun a b => bytesLe a.1 b.1)).map encPair)

/-- Decode one key=value segment. -/
def decSeg (seg : List Nat) : Option (List Nat × List Nat) :=
  match cutB 61 seg with
  | some (k, v) =>
    match queryUnescape k, queryUnescape v with
    | some k2, some v2 => some (k2, v2)
    | _, _ => none
  | none => none

/-- Decode a whole query string back into its key/value pairs. -/
def decodeQuery (s : List Nat) : Option (List (List Nat × List Nat)) :=
  (splitB 38 s).mapM decSeg

/-! ## pkg/appstore/device.go — DeviceType, lookups, registration, slots -/

/-- DeviceType struct from device.go. -/
structure DeviceType where
  success : Bool
  deviceClass : String
  model : String
  platform : String
  status : String
  isIPhone : Bool
  isIPad : Bool
  isMac : Bool
  error : String
deriving DecidableEq, Repr

/-- The failure value DeviceType with Success false, Error e and Go zero
values everywhere else, as built at every error return in device.go. -/
def DeviceType.fail (e : String) : DeviceType :=
  { success := false, deviceClass := "", model := "", platform := "", status := ""
    isIPhone := false, isIPad := false, isMac := false, error := e }

/-- The success value built at device.go lines 115-124 and 183-192: flags
derived from the deviceClass string by equality tests. -/
def DeviceType.mkSuccess (dc m p st : String) : DeviceType :=
  { success := true, deviceClass := dc, model := m, platform := p, status := st
    isIPhone := dc == "IPHONE", isIPad := dc == "IPAD", isMac := dc == "MAC"
    error := "" }

/-- Result pair of a transport call as device.go consumes it: the possibly-nil
parsed body and the possibly-nil error message. -/
abbrev GoResult := Option GoMap × Option String

/-- Outcome of the errors-array inspection pattern shared by GetDeviceType,
RegisterAndGetType and DeviceSort.  The inner single-value type assertion
`errors[0].(map[string]interface x7b x7d)` panics at run time when the first
element is not an object; that is the `panicked` outcome. -/
inductive ErrCheck where
  | detail : String → ErrCheck
  | panicked : ErrCheck
  | passThrough : ErrCheck
deriving DecidableEq, Repr

/-- The shared errors-array inspection: a non-empty errors array with an
object head carrying a string detail yields that detail; a non-object head
panics; everything else falls through. -/
def checkErrors (respM : Option GoMap) : ErrCheck :=
  match asArr (jget respM "errors") with
  | some (e0 :: _) =>
    match e0 with
    | JSON.obj eKvs =>
      match oget eKvs "detail" with
      | JSON.str s => ErrCheck.detail s
      | _ => ErrCheck.passThrough
    | _ => ErrCheck.panicked
  | _ => ErrCheck.passThrough

/-- Data-extraction path of GetDeviceType (device.go lines 78-125): first
element of the data array must be an object with an attributes object; field
reads default to "". -/
def getDeviceTypeData (respM : Option GoMap) : DeviceType :=
  match asArr (jget respM "data") with
  | some (d0 :: _) =>
    match d0 with
    | JSON.obj devKvs =>
      match oget devKvs "attributes" with
      | JSON.obj attrs =>
        DeviceType.mkSuccess (strField attrs "deviceClass") (strField attrs "model")
          (strField attrs "platform") (strField attrs "status")
      | _ => DeviceType.fail "Invalid device attributes"
    | _ => DeviceType.fail "Invalid device data"
  | _ => DeviceType.fail "Device not found"

/-- Model of DeviceAPI.GetDeviceType (device.go lines 60-125) applied to the
outcome of the listing call d.All.  A Go run-time panic is `Except.error ()`;
every other path returns a DeviceType with a nil Go error. -/
def getDeviceType (allResult : GoResult) : Except Unit DeviceType :=
  match allResult.2 with
  | some e => Except.ok (DeviceType.fail e)
  | none =>
    match checkErrors allResult.1 with
    | ErrCheck.detail s => Except.ok (DeviceType.fail s)
    | ErrCheck.panicked => Except.error ()
    | ErrCheck.passThrough => Except.ok (getDeviceTypeData allResult.1)

/-- Data-extraction path of RegisterAndGetType (device.go lines 147-193):
here data is a single object, not an array. -/
def registerData (respM : Option GoMap) : DeviceType :=
  match jget respM "data" with
  | JSON.obj dataKvs =>
    match oget dataKvs "attributes" with
    | JSON.obj attrs =>
      DeviceType.mkSuccess (strField attrs "deviceClass") (strField attrs "model")
        (strField attrs "platform") (strField attrs "status")
    | _ => DeviceType.fail "Invalid device attributes"
  | _ => DeviceType.fail "Invalid registration data"

/-- Model of DeviceAPI.RegisterAndGetType (device.go lines 129-193):
`regResult` is the outcome of d.Register, `lookupResult` the outcome of the
filtered listing that GetDeviceType(udid) would perform on fallback.  An error
detail containing "already exists on this team" triggers the fallback to
GetDeviceType; any other detail is returned as a failure. -/
def registerAndGetType (regResult : GoResult) (lookupResult : GoResult) :
    Except Unit DeviceType :=
  match regResult.2 with
  | some e => Except.ok (DeviceType.fail e)
  | none =>
    match checkErrors regResult.1 with
    | ErrCheck.detail s =>
      if strContains s "already exists on this team" then getDeviceType lookupResult
      else Except.ok (DeviceType.fail s)
    | ErrCheck.panicked => Except.error ()
    | ErrCheck.passThrough => Except.ok (registerData regResult.1)

/-- DataInfo struct from device.go (counts as Go ints, hence Int). -/
structure DataInfo where
  iphone : Int
  ipad : Int
  mac : Int
  email : String
deriving DecidableEq, Repr

/-- DeviceSortResult struct from device.go. -/
structure DeviceSortResult where
  code : Int
  msg : String
  data : DataInfo
deriving DecidableEq, Repr

/-- Go zero value of DeviceSortResult, returned with the error at the two
early error returns in DeviceSort. -/
def zeroSortResult : DeviceSortResult :=
  { code := 0, msg := "", data := { iphone := 0, ipad := 0, mac := 0, email := "" } }

/-- Go zero value of DataInfo, left in place by the code-1001 returns. -/
def zeroDataInfo : DataInfo :=
  { iphone := 0, ipad := 0, mac := 0, email := "" }

/-- The counting loop of DeviceSort (device.go lines 229-243): walk the data
array, counting deviceClass IPHONE and IPAD occurrences. -/
def countIOS : List JSON → Nat × Nat
  | [] => (0, 0)
  | item :: rest =>
    let acc := countIOS rest
    match item with
    | JSON.obj devKvs =>
      match oget devKvs "attributes" with
      | JSON.obj attrs =>
        match oget attrs "deviceClass" with
        | JSON.str dc =>
          if dc = "IPHONE" then (acc.1 + 1, acc.2)
          else if dc = "IPAD" then (acc.1, acc.2 + 1)
          else acc
        | _ => acc
      | _ => acc
    | _ => acc

/-- Membership test used to state the counting property independently of the
loop: an array item counts for class `c` when it is an object whose attributes
object carries deviceClass `c`. -/
def isClassItem (c : String) (item : JSON) : Bool :=
  match item with
  | JSON.obj devKvs =>
    match oget devKvs "attributes" with
    | JSON.obj attrs =>
      match oget attrs "deviceClass" with
      | JSON.str dc => dc == c
      | _ => false
    | _ => false
  | _ => false

/-- Model of DeviceAPI.DeviceSort (device.go lines 211-305).  The three
transport outcomes (iOS listing, Mac listing, users listing) are oracle
inputs; the result is the (DeviceSortResult, error) pair, with `Except.error
()` for the run-time panic in the Mac errors inspection. -/
def deviceSort (ios mac users : GoResult) :
    Except Unit (DeviceSortResult × Option String) :=
  match ios.2 with
  | some e => Except.ok (zeroSortResult, some e)
  | none =>
    let counts :=
      match asArr (jget ios.1 "data") with
      | some ds => countIOS ds
      | none => (0, 0)
    match mac.2 with
    | some _ =>
      Except.ok ({ code := 1001, msg := "Failed to query Mac devices", data := zeroDataInfo }, none)
    | none =>
      match checkErrors mac.1 with
      | ErrCheck.panicked => Except.error ()
      | ErrCheck.detail s =>
        Except.ok ({ code := 1001, msg := s, data := zeroDataInfo }, none)
      | ErrCheck.passThrough =>
        let macCount : Int :=
          match asObj (jget mac.1 "meta") with
          | some metaKvs =>
            match oget metaKvs "paging" with
            | JSON.obj pagingKvs =>
              match oget pagingKvs "total" with
              | JSON.num n => n
              | _ => 0
            | _ => 0
          | none => 0
        match users.2 with
        | some e => Except.ok (zeroSortResult, some e)
        | none =>
          let email :=
            match asArr (jget users.1 "data") with
            | some (u0 :: _) =>
              match u0 with
              | JSON.obj userKvs =>
                match oget userKvs "attributes" with
                | JSON.obj attrs => strField attrs "username"
                | _ => ""
              | _ => ""
            | _ => ""
          Except.ok
            ({ code := 1, msg := "ok"
               data := { iphone := 100 - (counts.1 : Int), ipad := 100 - (counts.2 : Int)
                         mac := 100 - macCount, email := email } }, none)

/-! ## pkg/appstore/client.go — NewClient -/

/-- Config struct of the appstore package.  The secret is key material (a raw
Go string with its parse oracle); when it names a file the facade reads that
file instead. -/
structure AppstoreConfig where
  issuer : String
  keyID : String
  secret : KeyMaterial
  apiVersion : String
deriving Repr

/-- Fixed default API version (client.go line 113). -/
def defaultAPIVersion : String := "v1"

/-- The configuration state a successfully built client holds. -/
structure ClientModel where
  issuer : String
  keyID : String
  apiVersion : String
  privateKey : KeyMaterial
deriving Repr

/-- Model of appstore.NewClient (client.go lines 132-180).  `fsRead` is the
filesystem oracle: `none` when os.Stat fails (the secret is raw key material),
`some (Except.error e)` when the stat succeeds but the read fails, and
`some (Except.ok content)` for a successful file read. -/
def newClient (fsRead : KeyMaterial → Option (Except String KeyMaterial))
    (cfg : AppstoreConfig) : Except String ClientModel :=
  if cfg.issuer = "" then Except.error "issuer is required"
  else if cfg.keyID = "" then Except.error "key id is required"
  else if cfg.secret.raw = "" then Except.error "secret is required"
  else
    let apiVersion := if cfg.apiVersion = "" then defaultAPIVersion else cfg.apiVersion
    match fsRead cfg.secret with
    | some (Except.error _) => Except.error "failed to read secret file"
    | some (Except.ok content) =>
      match newGenerator { issuer := cfg.issuer, keyID := cfg.keyID, privateKey := content } with
      | Except.error e => Except.error ("failed to create JWT generator: " ++ e)
      | Except.ok _ =>
        Except.ok { issuer := cfg.issuer, keyID := cfg.keyID, apiVersion := apiVersion
                    privateKey := content }
    | none =>
      match newGenerator { issuer := cfg.issuer, keyID := cfg.keyID, privateKey := cfg.secret } with
      | Except.error e => Except.error ("failed to create JWT generator: " ++ e)
      | Except.ok _ =>
        Except.ok { issuer := cfg.issuer, keyID := cfg.keyID, apiVersion := apiVersion
                    privateKey := cfg.secret }

/-- Flag-consistency checker for C10: each flag mirrors its deviceClass
equality, at most one flag is set, and failure results carry no flags. -/
def flagsConsistent (dt : DeviceType) : Bool :=
  (dt.isIPhone == (dt.deviceClass == "IPHONE")) &&
  (dt.isIPad == (dt.deviceClass == "IPAD")) &&
  (dt.isMac == (dt.deviceClass == "MAC")) &&
  (!(dt.isIPhone && dt.isIPad)) && (!(dt.isIPhone && dt.isMac)) &&
  (!(dt.isIPad && dt.isMac)) &&
  (dt.success || (!dt.isIPhone && !dt.isIPad && !dt.isMac))

/-- Lift a DeviceType predicate over the panic-tracking result. -/
def exAll (p : DeviceType → Bool) : Except Unit DeviceType → Bool
  | Except.error _ => true
  | Except.ok dt => p dt

/-! ## Helper lemmas -/

/-- Looking up the key just set by mapSet yields the new value. -/
theorem hLookup_mapSet (m : List (String × String)) (k v : String) :
    hLookup (mapSet m k v) k = v := by
  induction m with
  | nil => simp [mapSet, hLookup]
  | cons p rest ih =>
    obtain ⟨k0, v0⟩ := p
    by_cases h : k0 = k <;> simp [mapSet, hLookup, h, ih]

/-- A bearer header value is never the empty string. -/
theorem bearer_ne_empty (tok : String) : "Bearer " ++ tok ≠ "" := by
  intro h
  have h2 := congrArg String.length h
  rw [String.length_append] at h2
  simp only [show ("Bearer ").length = 7 from rfl, show ("" : String).length = 0 from rfl] at h2
  omega

/-! ## Claims -/

/-- C1: for every configuration whose key parses and every mint time `now`,
GenerateToken yields a token with iat = now - 60, exp = now + 19 minutes
(hence exp - iat = 1200 seconds exactly), aud = "appstoreconnect-v1", header
alg = "ES256" and header kid equal to the configured key ID. -/
theorem generateToken_claim_shape (cfg : JWTConfig) (now : Int) (k : ParsedKey)
    (h : parsePrivateKey cfg.privateKey = Except.ok k) :
    ∃ t, generateToken cfg now = Except.ok t ∧
      t.iat = now - 60 ∧ t.exp = now + 19 * 60 ∧ t.exp - t.iat = 1200 ∧
      t.aud = "appstoreconnect-v1" ∧ t.headerAlg = "ES256" ∧ t.headerKid = cfg.keyID := by
  unfold generateToken
  rw [h]
  exact ⟨_, rfl, rfl, rfl, show now + 19 * 60 - (now - 60) = 1200 by omega, rfl, rfl, rfl⟩

/-- Witness for C1 at a concrete configuration and mint time. -/
theorem generateToken_claim_shape_witness :
    ∃ t, generateToken
        { issuer := "iss-1", keyID := "KEY1"
          privateKey :=
            { raw := "pem-text"
              pemBlock := some { pkcs8 := some { family := KeyFamily.ecdsaP256, keyData := 7 }
                                 pkcs1 := none } } } 1000000 = Except.ok t ∧
      t.iat = 1000000 - 60 ∧ t.exp = 1000000 + 19 * 60 ∧ t.exp - t.iat = 1200 ∧
      t.aud = "appstoreconnect-v1" ∧ t.headerAlg = "ES256" ∧ t.headerKid = "KEY1" :=
  generateToken_claim_shape _ 1000000 { family := KeyFamily.ecdsaP256, keyData := 7 } rfl

/-- C2: a PEM-armoured elliptic-curve key parsed by either the PKCS8 attempt
or the PKCS1 fallback is returned; an input with no PEM block fails with the
key-format error; an RSA-family key (from either parse attempt) fails with the
key-type error. -/
theorem parsePrivateKey_claim_cases :
    (∀ km : KeyMaterial, km.pemBlock = none →
      parsePrivateKey km = Except.error KeyParseError.keyFormatNoPEM) ∧
    (∀ (km : KeyMaterial) (block : PEMBlock) (k : ParsedKey),
      km.pemBlock = some block → block.pkcs8 = some k → k.family = KeyFamily.ecdsaP256 →
      parsePrivateKey km = Except.ok k) ∧
    (∀ (km : KeyMaterial) (block : PEMBlock) (k : ParsedKey),
      km.pemBlock = some block → block.pkcs8 = none → block.pkcs1 = some k →
      k.family = KeyFamily.ecdsaP256 → parsePrivateKey km = Except.ok k) ∧
    (∀ (km : KeyMaterial) (block : PEMBlock) (k : ParsedKey),
      km.pemBlock = some block → block.pkcs8 = some k → k.family = KeyFamily.rsa →
      parsePrivateKey km = Except.error KeyParseError.keyTypeNotECDSA) ∧
    (∀ (km : KeyMaterial) (block : PEMBlock) (k : ParsedKey),
      km.pemBlock = some block → block.pkcs8 = none → block.pkcs1 = some k →
      k.family = KeyFamily.rsa →
      parsePrivateKey km = Except.error KeyParseError.keyTypeNotECDSA) := by
  refine ⟨?_, ?_, ?_, ?_, ?_⟩
  · intro km h
    simp [parsePrivateKey, h]
  · intro km block k hb h8 hf
    simp [parsePrivateKey, hb, h8, assertECDSA, hf]
  · intro km block k hb h8 h1 hf
    simp [parsePrivateKey, hb, h8, h1, assertECDSA, hf]
  · intro km block k hb h8 hf
    simp [parsePrivateKey, hb, h8, assertECDSA, hf]
  · intro km block k hb h8 h1 hf
    simp [parsePrivateKey, hb, h8, h1, assertECDSA, hf]

/-- Witness for C2: one concrete input for each of the five cases. -/
theorem parsePrivateKey_claim_cases_witness :
    parsePrivateKey { raw := "x", pemBlock := none } =
      Except.error KeyParseError.keyFormatNoPEM ∧
    parsePrivateKey
      { raw := "x", pemBlock := some { pkcs8 := some { family := KeyFamily.ecdsaP256, keyData := 1 }
                                       pkcs1 := none } } =
      Except.ok { family := KeyFamily.ecdsaP256, keyData := 1 } ∧
    parsePrivateKey
      { raw := "x", pemBlock := some { pkcs8 := none
                                       pkcs1 := some { family := KeyFamily.ecdsaP256, keyData := 2 } } } =
      Except.ok { family := KeyFamily.ecdsaP256, keyData := 2 } ∧
    parsePrivateKey
      { raw := "x", pemBlock := some { pkcs8 := some { family := KeyFamily.rsa, keyData := 3 }
                                       pkcs1 := none } } =
      Except.error KeyParseError.keyTypeNotECDSA ∧
    parsePrivateKey
      { raw := "x", pemBlock := some { pkcs8 := none
                                       pkcs1 := some { family := KeyFamily.rsa, keyData := 4 } } } =
      Except.error KeyParseError.keyTypeNotECDSA :=
  ⟨parsePrivateKey_claim_cases.1 _ rfl,
   parsePrivateKey_claim_cases.2.1 _ _ _ rfl rfl rfl,
   parsePrivateKey_claim_cases.2.2.1 _ _ _ rfl rfl rfl rfl,
   parsePrivateKey_claim_cases.2.2.2.1 _ _ _ rfl rfl rfl,
   parsePrivateKey_claim_cases.2.2.2.2 _ _ _ rfl rfl rfl rfl⟩

/-- C3: EnsureAuth mints and attaches exactly when the current header set
carries an empty Authorization value; once a (non-empty) token is attached,
every later EnsureAuth call returns the state unchanged, whatever the minting
oracle would produce — a presence check, never an expiry check. -/
theorem ensureAuth_gating_idempotent :
    (∀ (c : HTTPConfig) (mint : Except String String),
      hLookup (getHeaders c) "Authorization" ≠ "" → ensureAuth mint c = Except.ok c) ∧
    (∀ (c : HTTPConfig) (tok : String),
      hLookup (getHeaders c) "Authorization" = "" →
      ensureAuth (Except.ok tok) c = Except.ok (setToken c tok)) ∧
    (∀ (c : HTTPConfig) (tok : String) (mint : Except String String),
      tok ≠ "" → ensureAuth mint (setToken c tok) = Except.ok (setToken c tok)) := by
  refine ⟨?_, ?_, ?_⟩
  · intro c mint h
    simp [ensureAuth, h]
  · intro c tok h
    simp [ensureAuth, h]
  · intro c tok mint htok
    have hval : hLookup (getHeaders (setToken c tok)) "Authorization" = "Bearer " ++ tok := by
      simp [getHeaders, setToken, htok, hLookup_mapSet]
    simp [ensureAuth, hval, bearer_ne_empty tok]

/-- Witness for C3: a fresh client mints; a client holding a token does not. -/
theorem ensureAuth_gating_idempotent_witness :
    ensureAuth (Except.error "boom") { headers := [("X", "1")], token := "tokA" } =
      Except.ok { headers := [("X", "1")], token := "tokA" } ∧
    ensureAuth (Except.ok "tokB") { headers := [], token := "" } =
      Except.ok (setToken { headers := [], token := "" } "tokB") ∧
    ensureAuth (Except.error "later") (setToken { headers := [], token := "" } "tokB") =
      Except.ok (setToken { headers := [], token := "" } "tokB") :=
  ⟨ensureAuth_gating_idempotent.1 _ _ (by decide),
   ensureAuth_gating_idempotent.2.1 _ _ (by decide),
   ensureAuth_gating_idempotent.2.2 _ "tokB" _ (by decide)⟩

/-- C6: in each of the GET, POST and DELETE paths, a response whose body
parses as JSON and whose status is at least 400 yields the parsed body
together with the error signal. -/
theorem respResult_body_with_error (resp : HTTPResponse) (m : GoMap)
    (hb : resp.body = some m) (hs : 400 ≤ resp.statusCode) :
    getRespResult resp =
      (some m, some ("API request failed with status " ++ toString resp.statusCode)) ∧
    postRespResult resp =
      (some m, some ("API request failed with status " ++ toString resp.statusCode)) ∧
    deleteRespResult resp =
      (some m, some ("API request failed with status " ++ toString resp.statusCode)) := by
  unfold getRespResult postRespResult deleteRespResult
  rw [hb]
  simp [hs]

/-- Witness for C6 at a concrete 409 response. -/
theorem respResult_body_with_error_witness :
    getRespResult { statusCode := 409, body := some [("errors", JSON.arr [])] } =
      (some [("errors", JSON.arr [])], some ("API request failed with status " ++ toString 409)) ∧
    postRespResult { statusCode := 409, body := some [("errors", JSON.arr [])] } =
      (some [("errors", JSON.arr [])], some ("API request failed with status " ++ toString 409)) ∧
    deleteRespResult { statusCode := 409, body := some [("errors", JSON.arr [])] } =
      (some [("errors", JSON.arr [])], some ("API request failed with status " ++ toString 409)) :=
  respResult_body_with_error _ _ rfl (by decide)

/-- C7: when the underlying listing or registration call fails with message e,
GetDeviceType and RegisterAndGetType hand that failure straight back to their
caller: the returned result has Success false and carries e verbatim in its
Error field — nothing is retried, logged or dropped. -/
theorem deviceType_error_propagation (mO : Option GoMap) (e : String) (lookupR : GoResult) :
    getDeviceType (mO, some e) = Except.ok (DeviceType.fail e) ∧
    registerAndGetType (mO, some e) lookupR = Except.ok (DeviceType.fail e) ∧
    (DeviceType.fail e).success = false ∧ (DeviceType.fail e).error = e :=
  ⟨rfl, rfl, rfl, rfl⟩

/-- C9: NewClient rejects an empty issuer, key ID or secret with the matching
configuration error; otherwise the API version defaults to "v1" exactly when
unset, and construction passes the emptiness checks (both for raw key material
and for a successfully read secret file with non-empty content). -/
theorem newClient_config_validation (fsRead : KeyMaterial → Option (Except String KeyMaterial))
    (cfg : AppstoreConfig) :
    (cfg.issuer = "" → newClient fsRead cfg = Except.error "issuer is required") ∧
    (cfg.issuer ≠ "" → cfg.keyID = "" →
      newClient fsRead cfg = Except.error "key id is required") ∧
    (cfg.issuer ≠ "" → cfg.keyID ≠ "" → cfg.secret.raw = "" →
      newClient fsRead cfg = Except.error "secret is required") ∧
    (cfg.issuer ≠ "" → cfg.keyID ≠ "" → cfg.secret.raw ≠ "" → fsRead cfg.secret = none →
      ∃ cm, newClient fsRead cfg = Except.ok cm ∧
        cm.apiVersion = (if cfg.apiVersion = "" then "v1" else cfg.apiVersion)) ∧
    (∀ content : KeyMaterial, cfg.issuer ≠ "" → cfg.keyID ≠ "" → cfg.secret.raw ≠ "" →
      fsRead cfg.secret = some (Except.ok content) → content.raw ≠ "" →
      ∃ cm, newClient fsRead cfg = Except.ok cm ∧
        cm.apiVersion = (if cfg.apiVersion = "" then "v1" else cfg.apiVersion)) := by
  refine ⟨?_, ?_, ?_, ?_, ?_⟩
  · intro h
    simp [newClient, h]
  · intro h1 h2
    simp [newClient, h1, h2]
  · intro h1 h2 h3
    simp [newClient, h1, h2, h3]
  · intro h1 h2 h3 hfs
    refine ⟨{ issuer := cfg.issuer, keyID := cfg.keyID
              apiVersion := if cfg.apiVersion = "" then defaultAPIVersion else cfg.apiVersion
              privateKey := cfg.secret }, ?_, ?_⟩
    · simp [newClient, h1, h2, h3, hfs, newGenerator]
    · simp [defaultAPIVersion]
  · intro content h1 h2 h3 hfs hc
    refine ⟨{ issuer := cfg.issuer, keyID := cfg.keyID
              apiVersion := if cfg.apiVersion = "" then defaultAPIVersion else cfg.apiVersion
              privateKey := content }, ?_, ?_⟩
    · simp [newClient, h1, h2, h3, hfs, newGenerator, hc]
    · simp [defaultAPIVersion]

/-- Witness for C9: concrete failing and succeeding constructions. -/
theorem newClient_config_validation_witness :
    newClient (fun _ => none) { issuer := "", keyID := "k", secret := { raw := "s", pemBlock := none }, apiVersion := "" } =
      Except.error "issuer is required" ∧
    newClient (fun _ => none) { issuer := "i", keyID := "", secret := { raw := "s", pemBlock := none }, apiVersion := "" } =
      Except.error "key id is required" ∧
    newClient (fun _ => none) { issuer := "i", keyID := "k", secret := { raw := "", pemBlock := none }, apiVersion := "" } =
      Except.error "secret is required" ∧
    (∃ cm, newClient (fun _ => none) { issuer := "i", keyID := "k", secret := { raw := "s", pemBlock := none }, apiVersion := "" } =
      Except.ok cm ∧ cm.apiVersion = (if ("" : String) = "" then "v1" else "")) ∧
    (∃ cm, newClient (fun _ => some (Except.ok { raw := "pem", pemBlock := none }))
      { issuer := "i", keyID := "k", secret := { raw := "./file.p8", pemBlock := none }, apiVersion := "v2" } =
      Except.ok cm ∧ cm.apiVersion = (if ("v2" : String) = "" then "v1" else "v2")) :=
  ⟨(newClient_config_validation _ _).1 rfl,
   (newClient_config_validation _ _).2.1 (by decide) rfl,
   (newClient_config_validation _ _).2.2.1 (by decide) (by decide) rfl,
   (newClient_config_validation _ _).2.2.2.1 (by decide) (by decide) (by decide) rfl,
   (newClient_config_validation _ _).2.2.2.2 _ (by decide) (by decide) (by decide) rfl (by decide)⟩

/-- C4: when a registration response body carries an error detail containing
"already exists on this team", RegisterAndGetType falls back to the UDID
lookup (its result is exactly GetDeviceType's on the lookup outcome, and with
a well-formed lookup response it is that device's attributes); any other
detail is returned as a failure carrying that detail. -/
theorem registerAndGetType_conflict_fallback (regM eKvs : GoMap) (rest : List JSON)
    (lookupR : GoResult) (s : String)
    (herr : oget regM "errors" = JSON.arr (JSON.obj eKvs :: rest))
    (hdet : oget eKvs "detail" = JSON.str s) :
    (strContains s "already exists on this team" = true →
      registerAndGetType (some regM, none) lookupR = getDeviceType lookupR) ∧
    (strContains s "already exists on this team" = false →
      registerAndGetType (some regM, none) lookupR = Except.ok (DeviceType.fail s)) ∧
    (∀ (lm devKvs attrs : GoMap) (ds : List JSON),
      strContains s "already exists on this team" = true →
      lookupR = (some lm, none) →
      oget lm "errors" = JSON.null →
      oget lm "data" = JSON.arr (JSON.obj devKvs :: ds) →
      oget devKvs "attributes" = JSON.obj attrs →
      registerAndGetType (some regM, none) lookupR =
        Except.ok (DeviceType.mkSuccess (strField attrs "deviceClass")
          (strField attrs "model") (strField attrs "platform") (strField attrs "status"))) := by
  have hchk : checkErrors (some regM) = ErrCheck.detail s := by
    simp [checkErrors, jget, herr, hdet, asArr]
  refine ⟨?_, ?_, ?_⟩
  · intro hc
    simp [registerAndGetType, hchk, hc]
  · intro hc
    simp [registerAndGetType, hchk, hc]
  · intro lm devKvs attrs ds hc hlk herr2 hdata hattrs
    subst hlk
    have hchk2 : checkErrors (some lm) = ErrCheck.passThrough := by
      simp [checkErrors, jget, herr2, asArr]
    simp [registerAndGetType, hchk, hc, getDeviceType, hchk2, getDeviceTypeData, jget,
      hdata, asArr, hattrs]

/-- Witness for C4 at a concrete conflict body: the result is exactly the
fallback lookup's result. -/
theorem registerAndGetType_conflict_fallback_witness :
    strContains "Device already exists on this team." "already exists on this team" = true ∧
    registerAndGetType
        (some [("errors", JSON.arr [JSON.obj [("detail",
            JSON.str "Device already exists on this team.")]])], none)
        (some [("data", JSON.arr [])], none) =
      getDeviceType (some [("data", JSON.arr [])], none) := by
  refine ⟨by decide, ?_⟩
  exact (registerAndGetType_conflict_fallback
      [("errors", JSON.arr [JSON.obj [("detail", JSON.str "Device already exists on this team.")]])]
      [("detail", JSON.str "Device already exists on this team.")] []
      (some [("data", JSON.arr [])], none)
      "Device already exists on this team." rfl rfl).1 (by decide)

/-- The DeviceSort counting loop computes exactly the number of array items of
deviceClass IPHONE and of deviceClass IPAD. -/
theorem countIOS_eq (ds : List JSON) :
    countIOS ds = (List.countP (isClassItem "IPHONE") ds, List.countP (isClassItem "IPAD") ds) := by
  induction ds with
  | nil => rfl
  | cons item rest ih =>
    simp only [countIOS, List.countP_cons, ih]
    cases item with
    | obj devKvs =>
      cases hattr : oget devKvs "attributes" with
      | obj attrs =>
        cases hdc : oget attrs "deviceClass" with
        | str dc =>
          by_cases h1 : dc = "IPHONE"
          · simp [isClassItem, hattr, hdc, h1]
          · by_cases h2 : dc = "IPAD" <;> simp [isClassItem, hattr, hdc, h1, h2]
        | null => simp [isClassItem, hattr, hdc]
        | num n => simp [isClassItem, hattr, hdc]
        | boolean b => simp [isClassItem, hattr, hdc]
        | arr xs => simp [isClassItem, hattr, hdc]
        | obj o => simp [isClassItem, hattr, hdc]
      | null => simp [isClassItem, hattr]
      | str s => simp [isClassItem, hattr]
      | num n => simp [isClassItem, hattr]
      | boolean b => simp [isClassItem, hattr]
      | arr xs => simp [isClassItem, hattr]
    | null => simp [isClassItem]
    | str s => simp [isClassItem]
    | num n => simp [isClassItem]
    | boolean b => simp [isClassItem]
    | arr xs => simp [isClassItem]

/-- C5: when the iOS listing succeeds with a data array holding N devices of
class IPHONE and M of class IPAD (and the Mac and user queries succeed with
no error detail), DeviceSort reports IPHONE = 100 - N and IPAD = 100 - M. -/
theorem deviceSort_slots (iosM macM usersM : Option GoMap) (ds : List JSON)
    (hds : jget iosM "data" = JSON.arr ds)
    (hmac : checkErrors macM = ErrCheck.passThrough) :
    ∃ r, deviceSort (iosM, none) (macM, none) (usersM, none) = Except.ok (r, none) ∧
      r.code = 1 ∧ r.msg = "ok" ∧
      r.data.iphone = 100 - (List.countP (isClassItem "IPHONE") ds : Int) ∧
      r.data.ipad = 100 - (List.countP (isClassItem "IPAD") ds : Int) := by
  refine ⟨{ code := 1, msg := "ok"
            data := { iphone := 100 - (List.countP (isClassItem "IPHONE") ds : Int)
                      ipad := 100 - (List.countP (isClassItem "IPAD") ds : Int)
                      mac := 100 -
                        (match asObj (jget macM "meta") with
                         | some metaKvs =>
                           match oget metaKvs "paging" with
                           | JSON.obj pagingKvs =>
                             match oget pagingKvs "total" with
                             | JSON.num n => n
                             | _ => 0
                           | _ => 0
                         | none => 0)
                      email :=
                        match asArr (jget usersM "data") with
                        | some (u0 :: _) =>
                          match u0 with
                          | JSON.obj userKvs =>
                            match oget userKvs "attributes" with
                            | JSON.obj attrs => strField attrs "username"
                            | _ => ""
                          | _ => ""
                        | _ => "" } }, ?_, rfl, rfl, rfl, rfl⟩
  simp only [deviceSort, hds, hmac, asArr, countIOS_eq]

/-- Witness for C5: two IPHONEs and one IPAD leave 98 and 99 slots. -/
theorem deviceSort_slots_witness :
    (∃ r, deviceSort
        (some [("data", JSON.arr
          [JSON.obj [("attributes", JSON.obj [("deviceClass", JSON.str "IPHONE")])],
           JSON.obj [("attributes", JSON.obj [("deviceClass", JSON.str "IPAD")])],
           JSON.obj [("attributes", JSON.obj [("deviceClass", JSON.str "IPHONE")])]])], none)
        (some [("meta", JSON.obj [("paging", JSON.obj [("total", JSON.num 5)])])], none)
        (some [], none) = Except.ok (r, none) ∧
      r.code = 1 ∧ r.msg = "ok" ∧
      r.data.iphone = 100 - (List.countP (isClassItem "IPHONE")
          [JSON.obj [("attributes", JSON.obj [("deviceClass", JSON.str "IPHONE")])],
           JSON.obj [("attributes", JSON.obj [("deviceClass", JSON.str "IPAD")])],
           JSON.obj [("attributes", JSON.obj [("deviceClass", JSON.str "IPHONE")])]] : Int) ∧
      r.data.ipad = 100 - (List.countP (isClassItem "IPAD")
          [JSON.obj [("attributes", JSON.obj [("deviceClass", JSON.str "IPHONE")])],
           JSON.obj [("attributes", JSON.obj [("deviceClass", JSON.str "IPAD")])],
           JSON.obj [("attributes", JSON.obj [("deviceClass", JSON.str "IPHONE")])]] : Int)) :=
  deviceSort_slots
    (some [("data", JSON.arr
      [JSON.obj [("attributes", JSON.obj [("deviceClass", JSON.str "IPHONE")])],
       JSON.obj [("attributes", JSON.obj [("deviceClass", JSON.str "IPAD")])],
       JSON.obj [("attributes", JSON.obj [("deviceClass", JSON.str "IPHONE")])]])])
    (some [("meta", JSON.obj [("paging", JSON.obj [("total", JSON.num 5)])])])
    (some [])
    [JSON.obj [("attributes", JSON.obj [("deviceClass", JSON.str "IPHONE")])],
     JSON.obj [("attributes", JSON.obj [("deviceClass", JSON.str "IPAD")])],
     JSON.obj [("attributes", JSON.obj [("deviceClass", JSON.str "IPHONE")])]]
    rfl rfl

/-- Every failure DeviceType satisfies the flag-consistency checker. -/
theorem flagsConsistent_fail (e : String) : flagsConsistent (DeviceType.fail e) = true := rfl

/-- Every success DeviceType built from a deviceClass string satisfies the
flag-consistency checker. -/
theorem flagsConsistent_mkSuccess (dc m p st : String) :
    flagsConsistent (DeviceType.mkSuccess dc m p st) = true := by
  by_cases h1 : dc = "IPHONE" <;> by_cases h2 : dc = "IPAD" <;> by_cases h3 : dc = "MAC" <;>
    simp_all [flagsConsistent, DeviceType.mkSuccess]

/-- The GetDeviceType data path always yields a flag-consistent DeviceType. -/
theorem flagsConsistent_getDeviceTypeData (mO : Option GoMap) :
    flagsConsistent (getDeviceTypeData mO) = true := by
  unfold getDeviceTypeData
  repeat' split
  all_goals first
    | exact flagsConsistent_mkSuccess _ _ _ _
    | exact flagsConsistent_fail _

/-- The RegisterAndGetType data path always yields a flag-consistent DeviceType. -/
theorem flagsConsistent_registerData (mO : Option GoMap) :
    flagsConsistent (registerData mO) = true := by
  unfold registerData
  repeat' split
  all_goals first
    | exact flagsConsistent_mkSuccess _ _ _ _
    | exact flagsConsistent_fail _

/-- GetDeviceType only ever returns flag-consistent DeviceTypes. -/
theorem exAll_flags_getDeviceType (r : GoResult) :
    exAll flagsConsistent (getDeviceType r) = true := by
  unfold getDeviceType
  split
  · exact flagsConsistent_fail _
  · split
    · exact flagsConsistent_fail _
    · rfl
    · exact flagsConsistent_getDeviceTypeData _

/-- C10: every DeviceType returned by GetDeviceType or RegisterAndGetType has
IsIPhone / IsIPad / IsMac true exactly when DeviceClass is "IPHONE" / "IPAD" /
"MAC"; at most one flag is set, and all three are false in failure results. -/
theorem deviceType_flags_invariant (allR regR lookupR : GoResult) :
    exAll flagsConsistent (getDeviceType allR) = true ∧
    exAll flagsConsistent (registerAndGetType regR lookupR) = true := by
  refine ⟨exAll_flags_getDeviceType allR, ?_⟩
  unfold registerAndGetType
  split
  · exact flagsConsistent_fail _
  · split
    · split
      · exact exAll_flags_getDeviceType _
      · exact flagsConsistent_fail _
    · rfl
    · exact flagsConsistent_registerData _

/-- Hex digits produced by hexDigitU decode back to their nibble value. -/
theorem hexVal_hexDigitU : ∀ n < 16, hexVal (hexDigitU n) = some n := by decide

/-- Unreserved bytes are neither the percent byte nor the plus byte. -/
theorem unreserved_ne (b : Nat) (hb : isUnreservedByte b = true) : b ≠ 37 ∧ b ≠ 43 := by
  unfold isUnreservedByte at hb
  simp only [Bool.or_eq_true, Bool.and_eq_true, decide_eq_true_eq, beq_iff_eq] at hb
  omega

/-- Decoding an escaped byte prepended to an already-decodable tail. -/
theorem queryUnescape_escapeByte (b : Nat) (hb : b < 256) (rest r : List Nat)
    (hrest : queryUnescape rest = some r) :
    queryUnescape (escapeByte b ++ rest) = some (b :: r) := by
  cases hu : isUnreservedByte b with
  | true =>
    obtain ⟨h37, h43⟩ := unreserved_ne b hu
    simp only [escapeByte, hu, if_true, List.cons_append, List.nil_append]
    unfold queryUnescape
    rw [if_neg h37, if_neg h43, hrest]
  | false =>
    by_cases h32 : b = 32
    · subst h32
      have hesc : escapeByte 32 = [43] := by decide
      rw [hesc, List.cons_append, List.nil_append]
      unfold queryUnescape
      rw [if_neg (by decide), if_pos rfl, hrest]
    · have hesc : escapeByte b = [37, hexDigitU (b / 16), hexDigitU (b % 16)] := by
        simp [escapeByte, hu, h32]
      rw [hesc]
      simp only [List.cons_append, List.nil_append]
      unfold queryUnescape
      rw [if_pos rfl]
      simp only [hexVal_hexDigitU (b / 16) (by omega), hexVal_hexDigitU (b % 16) (by omega), hrest]
      have hb2 : 16 * (b / 16) + b % 16 = b := by omega
      rw [hb2]

/-- queryEscape of a byte string (bytes below 256) decodes back to it. -/
theorem queryUnescape_queryEscape (bs : List Nat) (h : ∀ b ∈ bs, b < 256) :
    queryUnescape (queryEscape bs) = some bs := by
  induction bs with
  | nil => rfl
  | cons b rest ih =>
    have hb : b < 256 := h b (by simp)
    have hrest := ih (fun x hx => h x (by simp [hx]))
    have hq : queryEscape (b :: rest) = escapeByte b ++ queryEscape rest := by
      simp [queryEscape]
    rw [hq]
    exact queryUnescape_escapeByte b hb _ _ hrest

set_option maxRecDepth 8192 in
/-- Escaped output never contains the ampersand or equals bytes. -/
theorem escapeByte_no_sep : ∀ b < 256, ∀ c ∈ escapeByte b, c ≠ 38 ∧ c ≠ 61 := by decide

/-- Lift the separator-freeness of escapeByte to whole escaped strings. -/
theorem queryEscape_no_sep (bs : List Nat) (h : ∀ b ∈ bs, b < 256) :
    ∀ c ∈ queryEscape bs, c ≠ 38 ∧ c ≠ 61 := by
  intro c hc
  simp only [queryEscape, List.mem_flatten, List.mem_map] at hc
  obtain ⟨l, ⟨b, hb, rfl⟩, hcl⟩ := hc
  exact escapeByte_no_sep b (h b hb) c hcl

/-- Splitting a separator-free string is the identity. -/
theorem splitB_no_sep (sep : Nat) (p : List Nat) (h : ∀ c ∈ p, c ≠ sep) :
    splitB sep p = [p] := by
  induction p with
  | nil => rfl
  | cons b rest ih =>
    have hb : b ≠ sep := h b (by simp)
    have hih := ih (fun c hc => h c (by simp [hc]))
    unfold splitB
    rw [if_neg hb, hih]

/-- Unfolding equation of splitB on a cons cell. -/
theorem splitB_cons (sep b : Nat) (l : List Nat) :
    splitB sep (b :: l) = if b = sep then [] :: splitB sep l
      else match splitB sep l with
        | [] => [[b]]
        | g :: gs => (b :: g) :: gs := rfl

/-- Splitting peels a separator-free prefix before an explicit separator. -/
theorem splitB_append (sep : Nat) (p l : List Nat) (h : ∀ c ∈ p, c ≠ sep) :
    splitB sep (p ++ sep :: l) = p :: splitB sep l := by
  induction p with
  | nil => simp [splitB_cons]
  | cons b rest ih =>
    have hb : b ≠ sep := h b (by simp)
    have hih := ih (fun c hc => h c (by simp [hc]))
    simp only [List.cons_append, splitB_cons, if_neg hb, hih]

/-- splitB inverts joinSep on non-empty, separator-free parts. -/
theorem splitB_joinSep (sep : Nat) (parts : List (List Nat)) (hne : parts ≠ [])
    (h : ∀ p ∈ parts, ∀ c ∈ p, c ≠ sep) :
    splitB sep (joinSep sep parts) = parts := by
  induction parts with
  | nil => exact absurd rfl hne
  | cons p ps ih =>
    cases ps with
    | nil => exact splitB_no_sep sep p (h p (by simp))
    | cons q qs =>
      have hjoin : joinSep sep (p :: q :: qs) = p ++ sep :: joinSep sep (q :: qs) := rfl
      rw [hjoin, splitB_append sep p _ (h p (by simp)),
        ih (by simp) (fun x hx c hc => h x (by simp [hx]) c hc)]

/-- Unfolding equation of cutB on a cons cell. -/
theorem cutB_cons (sep b : Nat) (l : List Nat) :
    cutB sep (b :: l) = if b = sep then some ([], l)
      else match cutB sep l with
        | some (x, r) => some (b :: x, r)
        | none => none := rfl

/-- cutB finds the explicit separator after a separator-free prefix. -/
theorem cutB_append (sep : Nat) (k v : List Nat) (h : ∀ c ∈ k, c ≠ sep) :
    cutB sep (k ++ sep :: v) = some (k, v) := by
  induction k with
  | nil => simp [cutB_cons]
  | cons b rest ih =>
    have hb : b ≠ sep := h b (by simp)
    have hih := ih (fun c hc => h c (by simp [hc]))
    simp only [List.cons_append, cutB_cons, if_neg hb, hih]

/-- Decoding one encoded pair recovers the pair. -/
theorem decSeg_encPair (p : List Nat × List Nat)
    (h1 : ∀ b ∈ p.1, b < 256) (h2 : ∀ b ∈ p.2, b < 256) :
    decSeg (encPair p) = some p := by
  obtain ⟨k, v⟩ := p
  have hknosep : ∀ c ∈ queryEscape k, c ≠ 61 := fun c hc => (queryEscape_no_sep k h1 c hc).2
  unfold decSeg encPair
  rw [cutB_append 61 _ _ hknosep]
  simp only [queryUnescape_queryEscape k h1, queryUnescape_queryEscape v h2]

/-- An encoded pair never contains the ampersand byte. -/
theorem encPair_no_amp (p : List Nat × List Nat)
    (h1 : ∀ b ∈ p.1, b < 256) (h2 : ∀ b ∈ p.2, b < 256) :
    ∀ c ∈ encPair p, c ≠ 38 := by
  intro c hc
  unfold encPair at hc
  rcases List.mem_append.1 hc with hL | hR
  · exact (queryEscape_no_sep p.1 h1 c hL).1
  · rcases List.mem_cons.1 hR with h61 | hV
    · subst h61; decide
    · exact (queryEscape_no_sep p.2 h2 c hV).1

/-- Decoding the encoded segments of a valid pair list recovers the list. -/
theorem mapM_decSeg_encPair (l : List (List Nat × List Nat))
    (h : ∀ p ∈ l, (∀ b ∈ p.1, b < 256) ∧ (∀ b ∈ p.2, b < 256)) :
    (l.map encPair).mapM decSeg = some l := by
  induction l with
  | nil => rfl
  | cons p rest ih =>
    have hp := h p (by simp)
    have hrest := ih (fun q hq => h q (by simp [hq]))
    simp only [List.map_cons, List.mapM_cons, decSeg_encPair p hp.1 hp.2, hrest]
    rfl

/-- C8: for every non-empty parameter map handed to the resource-client GET,
the produced query string (url.Values.Encode: keys sorted, both sides
query-escaped, joined with = and &) decodes back to exactly the original
key/value pairs — a permutation, hence each pair exactly once, counted with
multiplicity. -/
theorem queryParams_roundtrip (ps : List (List Nat × List Nat)) (hne : ps ≠ [])
    (hval : ∀ p ∈ ps, (∀ b ∈ p.1, b < 256) ∧ (∀ b ∈ p.2, b < 256)) :
    ∃ qs, decodeQuery (encodeQuery ps) = some qs ∧ qs.Perm ps ∧
      ∀ p, qs.count p = ps.count p := by
  have hperm : (List.mergeSort ps (fun a b => bytesLe a.1 b.1)).Perm ps :=
    List.mergeSort_perm ps _
  refine ⟨List.mergeSort ps (fun a b => bytesLe a.1 b.1), ?_, hperm,
    fun p => hperm.countP_eq (fun x => x == p)⟩
  have hsne : List.mergeSort ps (fun a b => bytesLe a.1 b.1) ≠ [] := by
    intro h0
    rw [h0] at hperm
    exact hne hperm.symm.eq_nil
  have hvs : ∀ p ∈ List.mergeSort ps (fun a b => bytesLe a.1 b.1),
      (∀ b ∈ p.1, b < 256) ∧ (∀ b ∈ p.2, b < 256) :=
    fun p hp => hval p (hperm.subset hp)
  have hparts_ne : (List.mergeSort ps (fun a b => bytesLe a.1 b.1)).map encPair ≠ [] := by
    simpa using hsne
  have hno : ∀ part ∈ (List.mergeSort ps (fun a b => bytesLe a.1 b.1)).map encPair,
      ∀ c ∈ part, c ≠ 38 := by
    intro part hpart
    obtain ⟨p, hp, rfl⟩ := List.mem_map.1 hpart
    exact encPair_no_amp p (hvs p hp).1 (hvs p hp).2
  unfold decodeQuery encodeQuery
  rw [splitB_joinSep 38 _ hparts_ne hno]
  exact mapM_decSeg_encPair _ hvs

/-- Witness for C8: two concrete pairs, one with bracket bytes needing
escaping, round-trip through the encoder. -/
theorem queryParams_roundtrip_witness :
    ([([108], [50]), ([102, 91, 117, 93], [65])] : List (List Nat × List Nat)) ≠ [] ∧
    (∃ qs, decodeQuery (encodeQuery [([108], [50]), ([102, 91, 117, 93], [65])]) = some qs ∧
      qs.Perm [([108], [50]), ([102, 91, 117, 93], [65])] ∧
      ∀ p, qs.count p =
        ([([108], [50]), ([102, 91, 117, 93], [65])] : List (List Nat × List Nat)).count p) :=
  ⟨by decide, queryParams_roundtrip _ (by decide) (by decide)⟩
